import Mathlib

/-!
Shallow embedding of the entity/spatial layer of the possession_index
repository: `src/game/player.py`, `src/soccer/player.py` and
`src/run_utils.py`.

Coordinates are modelled as rational pairs; `np.linalg.norm` over a
2-vector is modelled as the real square root of the rational sum of
squares.  Python code that can raise (attribute access on `None`,
missing dictionary keys, comparing a float against `None`) is modelled
with `Except PyErr`; code that explicitly returns `None` on missing
data is modelled with `Option`.
-/

/-- Python exceptions that the embedded code can raise. -/
inductive PyErr where
  | attributeError
  | keyError
  | typeError
deriving DecidableEq, Repr

/-- A 2-D point in pixel (or motion-compensated) space. -/
abbrev Point := ℚ × ℚ

/-- A 2-point bounding region `[(x1,y1),(x2,y2)]` as stored in
`detection.points` / `detection.absolute_points`. -/
abbrev BoxPoints := Point × Point

/-- Embedding of `np.linalg.norm(v)` for a 2-vector `v`. -/
noncomputable def linalg_norm (v : Point) : ℝ :=
  Real.sqrt (((v.1 ^ 2 + v.2 ^ 2 : ℚ) : ℝ))

/-- The `left_foot` formula shared by both Player classes:
`x1, y1 = points[0]; x2, y2 = points[1]; return [x1, y2]`. -/
def left_foot_of (points : BoxPoints) : Point := (points.1.1, points.2.2)

/-- The `right_foot` formula shared by both Player classes: `points[1]`. -/
def right_foot_of (points : BoxPoints) : Point := points.2

/-- Midpoint of the two corner points, as computed by `get_center`. -/
def box_center (points : BoxPoints) : Point :=
  ((points.1.1 + points.2.1) / 2, (points.1.2 + points.2.2) / 2)

/-- Roster team object; `game/team.py` / `soccer/team.py` are consumed but not under `src/`. -/
structure Team where
  name : String
deriving DecidableEq, Repr

/-- Modelled from the spec: `Team.from_name` (`game/team.py`,
`soccer/team.py` are not in `src/`): "returns the Team whose name
matches exactly (case-sensitive), or null if no match". -/
def Team.from_name (teams : List Team) (name : String) : Option Team :=
  teams.find? (fun t => t.name == name)

/-- The `data` attribute map of a norfair `Detection`, restricted to the
keys the embedded code reads or writes.  An outer `some` means the key
is present (its value may still be Python `None` for `"team"`). -/
structure DetData where
  id : Option Int := none
  classification : Option String := none
  team : Option (Option Team) := none
deriving DecidableEq, Repr

/-- A norfair `Detection`: a 2-point region in pixel space, the same
region in motion-compensated (absolute) space, and the attribute map. -/
structure Detection where
  points : BoxPoints
  absolute_points : BoxPoints
  data : DetData := {}
deriving DecidableEq, Repr

/-- Modelled from the spec: the `center` attribute read through
`ball.detection.center` / `ball.last_detection.center` (`game/ball.py`
is not in `src/`): the midpoint of the detection two corner points. -/
def Detection.center (d : Detection) : Point := box_center d.points

/-- Modelled from the spec: the Ball entity (`game/ball.py`,
`soccer/ball.py` are not in `src/`): it owns the current frame
Detection and optionally retains the previous non-null Detection. -/
structure Ball where
  detection : Option Detection := none
  last_detection : Option Detection := none
deriving DecidableEq, Repr

/-- Modelled from the spec: `Ball.center` is null when the Detection is
null and otherwise the midpoint of the detection points. -/
def Ball.center (b : Ball) : Option Point :=
  b.detection.map (fun d => box_center d.points)

/-- Modelled from the spec: `Ball.center_abs`, same with
`absolute_points`. -/
def Ball.center_abs (b : Ball) : Option Point :=
  b.detection.map (fun d => box_center d.absolute_points)

/-- Embedding of the `game/player.py` `Player`: detection wrapper with team, possession
flag and (unused here) transformed coordinates. -/
structure Player where
  detection : Option Detection
  team : Option Team
  in_possession : Bool
  txy : Option Point
  be_xy : Option Point
deriving DecidableEq, Repr

/-- Embeds `Player.__init__`: team is read from `detection.data["team"]` when
the detection is non-null and the key is present. -/
def Player.init (detection : Option Detection) : Player :=
  { detection := detection
    txy := none
    be_xy := none
    in_possession := false
    team :=
      match detection with
      | none => none
      | some d =>
        match d.data.team with
        | some t => t
        | none => none }

/-- Embeds `Player.get_left_foot(self, points)`. -/
def Player.get_left_foot (_p : Player) (points : BoxPoints) : Point :=
  left_foot_of points

/-- Embeds `Player.get_right_foot(self, points)`. -/
def Player.get_right_foot (_p : Player) (points : BoxPoints) : Point :=
  right_foot_of points

/-- Embeds `Player.get_center(self, points)`: the body immediately rebinds
`points = self.detection.points`, so the argument is ignored and the
result is always the pixel-space center; on a null detection the
attribute access raises. -/
def Player.get_center (p : Player) (_points : BoxPoints) : Except PyErr Point :=
  match p.detection with
  | none => .error .attributeError
  | some d => .ok (box_center d.points)

/-- Embeds the `Player.left_foot` property: reads `self.detection.points` with no
null guard, so a null detection raises `AttributeError`. -/
def Player.left_foot (p : Player) : Except PyErr Point :=
  match p.detection with
  | none => .error .attributeError
  | some d => .ok (p.get_left_foot d.points)

/-- Embeds the `Player.right_foot` property. -/
def Player.right_foot (p : Player) : Except PyErr Point :=
  match p.detection with
  | none => .error .attributeError
  | some d => .ok (p.get_right_foot d.points)

/-- Embeds the `Player.center` property. -/
def Player.center (p : Player) : Except PyErr Point :=
  match p.detection with
  | none => .error .attributeError
  | some d => p.get_center d.points

/-- Embeds the `Player.left_foot_abs` property: reads `absolute_points`. -/
def Player.left_foot_abs (p : Player) : Except PyErr Point :=
  match p.detection with
  | none => .error .attributeError
  | some d => .ok (p.get_left_foot d.absolute_points)

/-- Embeds the `Player.right_foot_abs` property. -/
def Player.right_foot_abs (p : Player) : Except PyErr Point :=
  match p.detection with
  | none => .error .attributeError
  | some d => .ok (p.get_right_foot d.absolute_points)

/-- Embeds the `Player.center_abs` property: passes `absolute_points` to
`get_center`, which ignores them, so the value is the pixel center. -/
def Player.center_abs (p : Player) : Except PyErr Point :=
  match p.detection with
  | none => .error .attributeError
  | some d => p.get_center d.absolute_points

/-- Embeds the `Player.feet` property: `np.array([self.left_foot, self.right_foot])`;
the first accessor raises on a null detection. -/
def Player.feet (p : Player) : Except PyErr (Point × Point) :=
  match p.detection with
  | none => .error .attributeError
  | some d => .ok (p.get_left_foot d.points, p.get_right_foot d.points)

/-- Embeds `Player.distance_to_ball`: null if the player detection or the
ball center is null, else `np.linalg.norm(ball.center - self.center)`. -/
noncomputable def Player.distance_to_ball (p : Player) (b : Ball) : Option ℝ :=
  match p.detection, b.center with
  | some d, some c => some (linalg_norm (c - box_center d.points))
  | _, _ => none

/-- Embeds `Player.distance_to_last_ball`: on a null ball center, falls back to
`ball.last_detection.center`; otherwise uses `ball.detection.center`.
In this model `Ball.center` is null exactly when `Ball.detection` is
null, so the `ball.detection`/`ball.last_detection.center` null checks
of the source are decided by the same matches. -/
noncomputable def Player.distance_to_last_ball (p : Player) (b : Ball) : Option ℝ :=
  match p.detection with
  | none => none
  | some d =>
    match b.center with
    | none =>
      match b.last_detection with
      | some ld => some (linalg_norm (ld.center - box_center d.points))
      | none => none
    | some _ =>
      match b.detection with
      | some bd => some (linalg_norm (bd.center - box_center d.points))
      | none => none

/-- Embeds `Player.closest_foot_to_ball`: left foot on a strictly smaller
distance, otherwise right foot. -/
noncomputable def Player.closest_foot_to_ball (p : Player) (b : Ball) : Option Point :=
  match p.detection, b.center with
  | some d, some c =>
    let lf := p.get_left_foot d.points
    let rf := p.get_right_foot d.points
    if linalg_norm (c - lf) < linalg_norm (c - rf) then some lf else some rf
  | _, _ => none

/-- Embeds `Player.closest_center_to_ball_abs`: compares
`norm(ball.center_abs - self.center_abs)` (where `self.center_abs` is in
fact the pixel center, because `get_center` ignores its argument) with
`self.distance_to_ball(ball)`; comparing a float against a null distance
would raise `TypeError`. -/
noncomputable def Player.closest_center_to_ball_abs (p : Player) (b : Ball) :
    Except PyErr (Option Point) :=
  match p.detection, b.center_abs with
  | some d, some cabs =>
    let cd := linalg_norm (cabs - box_center d.points)
    match p.distance_to_ball b with
    | none => .error .typeError
    | some pd => .ok (if cd ≤ pd then some (box_center d.points) else none)
  | _, _ => .ok none

/-- The right-hand side of `Player.__eq__`: a Player or any non-Player
value. -/
inductive PyVal where
  | player (p : Player)
  | nonPlayer
deriving DecidableEq

/-- Embeds `Player.__eq__`: non-Players compare false; otherwise both sides
`detection.data["id"]` are read (raising `AttributeError` on a null
detection and `KeyError` on a missing key) and compared. -/
def Player.eq (p : Player) (other : PyVal) : Except PyErr Bool :=
  match other with
  | .nonPlayer => .ok false
  | .player q =>
    match p.detection with
    | none => .error .attributeError
    | some d1 =>
      match d1.data.id with
      | none => .error .keyError
      | some i =>
        match q.detection with
        | none => .error .attributeError
        | some d2 =>
          match d2.data.id with
          | none => .error .keyError
          | some j => .ok (i == j)

/-- Embeds `Player.have_same_id`: false on a null argument; false when either
map lacks `"id"` (the membership test itself raises on a null
detection); otherwise delegates to `player1 == player2`. -/
def Player.have_same_id (player1 player2 : Option Player) : Except PyErr Bool :=
  match player1, player2 with
  | none, _ => .ok false
  | _, none => .ok false
  | some a, some b =>
    match a.detection with
    | none => .error .attributeError
    | some d1 =>
      match d1.data.id with
      | none => .ok false
      | some _ =>
        match b.detection with
        | none => .error .attributeError
        | some d2 =>
          match d2.data.id with
          | none => .ok false
          | some _ => a.eq (.player b)

/-- The per-detection step of `Player.from_detections`: when the
attribute map holds a classification label, resolve it and store the
result under the `"team"` key. -/
def classify_detection (teams : List Team) (d : Detection) : Detection :=
  match d.data.classification with
  | some name => { d with data := { d.data with team := some (Team.from_name teams name) } }
  | none => d

/-- Embeds `Player.from_detections`: skip null detections, resolve and store
the team, then construct the Player. -/
def Player.from_detections (detections : List (Option Detection)) (teams : List Team) :
    List Player :=
  match detections with
  | [] => []
  | none :: rest => Player.from_detections rest teams
  | some d :: rest => Player.init (classify_detection teams d) :: Player.from_detections rest teams

namespace Soccer

/-- Embedding of the `soccer/player.py` `Player`: detection wrapper with team. -/
structure Player where
  detection : Option Detection
  team : Option Team
deriving DecidableEq, Repr

/-- Embeds the `soccer` `Player.__init__`. -/
def Player.init (detection : Option Detection) : Player :=
  { detection := detection
    team :=
      match detection with
      | none => none
      | some d =>
        match d.data.team with
        | some t => t
        | none => none }

/-- Embeds the `soccer` `Player.left_foot` property: `[x1, y2]`, no null guard. -/
def Player.left_foot (p : Player) : Except PyErr Point :=
  match p.detection with
  | none => .error .attributeError
  | some d => .ok (left_foot_of d.points)

/-- Embeds the `soccer` `Player.right_foot` property: `self.detection.points[1]`. -/
def Player.right_foot (p : Player) : Except PyErr Point :=
  match p.detection with
  | none => .error .attributeError
  | some d => .ok (right_foot_of d.points)

/-- Embeds the `soccer` `Player.feet` property. -/
def Player.feet (p : Player) : Except PyErr (Point × Point) :=
  match p.detection with
  | none => .error .attributeError
  | some d => .ok (left_foot_of d.points, right_foot_of d.points)

/-- Embeds the `soccer` `Player.distance_to_ball`: the minimum of the ball-center
distances to the two feet (not the center-to-center distance). -/
noncomputable def Player.distance_to_ball (p : Player) (b : Ball) : Option ℝ :=
  match p.detection, b.center with
  | some d, some c =>
    some (min (linalg_norm (c - left_foot_of d.points))
              (linalg_norm (c - right_foot_of d.points)))
  | _, _ => none

/-- Embeds the `soccer` `Player.closest_foot_to_ball`: same branch as the game
version. -/
noncomputable def Player.closest_foot_to_ball (p : Player) (b : Ball) : Option Point :=
  match p.detection, b.center with
  | some d, some c =>
    let lf := left_foot_of d.points
    let rf := right_foot_of d.points
    if linalg_norm (c - lf) < linalg_norm (c - rf) then some lf else some rf
  | _, _ => none

end Soccer

/-- One numpy basic-slice assignment `m[r0:r1, c0:c1] = 0` on a 2-D
array viewed as a function of its indices (slice bounds are clipped to
the array extent by numpy; an empty slice assigns nothing, which the
half-open conditions capture directly). -/
def zero_slice_region (m : ℕ → ℕ → ℕ) (r0 r1 c0 c1 : ℕ) : ℕ → ℕ → ℕ :=
  fun i j => if r0 ≤ i ∧ i < r1 ∧ c0 ≤ j ∧ j < c1 then 0 else m i j

/-- Embeds `create_mask` (`src/run_utils.py`) on an empty detection list: start
from `np.ones(frame.shape[:2])`, then execute
`mask[363:118, 856:64] = 0` and `mask[1589:143, 1805:95] = 0`. -/
def create_mask_no_detections (h w : ℕ) : Fin h → Fin w → ℕ :=
  fun i j =>
    zero_slice_region (zero_slice_region (fun _ _ => 1) 363 118 856 64) 1589 143 1805 95 i j

/-- Evaluation helper: `np.linalg.norm` of a concrete 2-vector whose
sum of squares is a perfect rational square. -/
lemma linalg_norm_eval {x y r : ℚ} (hr : 0 ≤ r) (h : x ^ 2 + y ^ 2 = r ^ 2) :
    linalg_norm (x, y) = (r : ℝ) := by
  show Real.sqrt (((x ^ 2 + y ^ 2 : ℚ) : ℝ)) = (r : ℝ)
  have h2 : ((x ^ 2 + y ^ 2 : ℚ) : ℝ) = ((r : ℝ)) ^ 2 := by
    rw [h]; push_cast; ring
  rw [h2, Real.sqrt_sq (by exact_mod_cast hr)]

/-- Evaluation helper: norm of a difference of concrete points. -/
lemma linalg_norm_sub_eval {a b c d r : ℚ} (hr : 0 ≤ r)
    (h : (a - c) ^ 2 + (b - d) ^ 2 = r ^ 2) :
    linalg_norm ((a, b) - (c, d)) = (r : ℝ) := by
  rw [Prod.mk_sub_mk]
  exact linalg_norm_eval hr h

/-- Claim C1 counterexample: the claim says every geometric accessor on a
null-Detection Player "returns null; it never throws".  On the concrete
Player wrapping a null detection, `left_foot` reads
`self.detection.points` and raises `AttributeError` instead of
returning a value. -/
theorem left_foot_null_detection_raises :
    (Player.init none).left_foot = Except.error PyErr.attributeError := rfl

/-- Claim C1 (amended): every geometric accessor (`left_foot`, `right_foot`,
`center`, `feet`, `left_foot_abs`, `right_foot_abs`, `center_abs` on the
game Player; `left_foot`, `right_foot`, `feet` on the soccer Player)
raises `AttributeError` on a null Detection; none fabricates
coordinates. -/
theorem null_detection_accessors_raise (p : Player) (s : Soccer.Player)
    (hp : p.detection = none) (hs : s.detection = none) :
    p.left_foot = Except.error PyErr.attributeError ∧
    p.right_foot = Except.error PyErr.attributeError ∧
    p.center = Except.error PyErr.attributeError ∧
    p.feet = Except.error PyErr.attributeError ∧
    p.left_foot_abs = Except.error PyErr.attributeError ∧
    p.right_foot_abs = Except.error PyErr.attributeError ∧
    p.center_abs = Except.error PyErr.attributeError ∧
    s.left_foot = Except.error PyErr.attributeError ∧
    s.right_foot = Except.error PyErr.attributeError ∧
    s.feet = Except.error PyErr.attributeError := by
  refine ⟨?_, ?_, ?_, ?_, ?_, ?_, ?_, ?_, ?_, ?_⟩ <;>
    simp [Player.left_foot, Player.right_foot, Player.center, Player.feet,
      Player.left_foot_abs, Player.right_foot_abs, Player.center_abs,
      Soccer.Player.left_foot, Soccer.Player.right_foot, Soccer.Player.feet,
      hp, hs]

/-- Claim C1 witness: the amended statement at the concrete null-detection
players. -/
theorem null_detection_accessors_raise_witness :
    (Player.init none).left_foot = Except.error PyErr.attributeError ∧
    (Player.init none).right_foot = Except.error PyErr.attributeError ∧
    (Player.init none).center = Except.error PyErr.attributeError ∧
    (Player.init none).feet = Except.error PyErr.attributeError ∧
    (Player.init none).left_foot_abs = Except.error PyErr.attributeError ∧
    (Player.init none).right_foot_abs = Except.error PyErr.attributeError ∧
    (Player.init none).center_abs = Except.error PyErr.attributeError ∧
    (Soccer.Player.init none).left_foot = Except.error PyErr.attributeError ∧
    (Soccer.Player.init none).right_foot = Except.error PyErr.attributeError ∧
    (Soccer.Player.init none).feet = Except.error PyErr.attributeError :=
  null_detection_accessors_raise (Player.init none) (Soccer.Player.init none) rfl rfl

/-- Claim C2 counterexample: on the box `((0,5),(2,3))` the left-foot accessor
returns `(0, 3)` — the y of the second corner — not `(0, max 5 3) = (0, 5)`
as the claim states. -/
theorem left_foot_not_lower_left :
    (Player.init (some ⟨((0, 5), (2, 3)), ((0, 5), (2, 3)), {}⟩)).left_foot
      = Except.ok ((0 : ℚ), (3 : ℚ)) ∧
    (Player.init (some ⟨((0, 5), (2, 3)), ((0, 5), (2, 3)), {}⟩)).left_foot
      ≠ Except.ok ((0 : ℚ), max (5 : ℚ) 3) := by
  constructor
  · rfl
  · intro hco
    have h1 : (Player.init (some ⟨((0, 5), (2, 3)), ((0, 5), (2, 3)), {}⟩)).left_foot
        = Except.ok ((0 : ℚ), (3 : ℚ)) := rfl
    rw [h1] at hco
    have hmax : max (5 : ℚ) 3 = 5 := max_eq_left (by norm_num)
    rw [hmax] at hco
    simp only [Except.ok.injEq, Prod.mk.injEq] at hco
    exact absurd hco.2 (by norm_num)

/-- Claim C2 (amended): for a box `[(x1,y1),(x2,y2)]` the left-foot accessor
(of both Player classes) returns `(x1, y2)`; this coincides with the
claimed `(x1, max(y1,y2))` exactly when `y1 ≤ y2`. -/
theorem left_foot_formula (p : Player) (s : Soccer.Player) (d e : Detection)
    (hp : p.detection = some d) (hs : s.detection = some e) :
    (p.left_foot = Except.ok (d.points.1.1, d.points.2.2) ∧
      (d.points.1.2 ≤ d.points.2.2 →
        p.left_foot = Except.ok (d.points.1.1, max d.points.1.2 d.points.2.2))) ∧
    (s.left_foot = Except.ok (e.points.1.1, e.points.2.2) ∧
      (e.points.1.2 ≤ e.points.2.2 →
        s.left_foot = Except.ok (e.points.1.1, max e.points.1.2 e.points.2.2))) := by
  refine ⟨⟨?_, ?_⟩, ?_, ?_⟩
  · simp [Player.left_foot, Player.get_left_foot, left_foot_of, hp]
  · intro h
    rw [max_eq_right h]
    simp [Player.left_foot, Player.get_left_foot, left_foot_of, hp]
  · simp [Soccer.Player.left_foot, left_foot_of, hs]
  · intro h
    rw [max_eq_right h]
    simp [Soccer.Player.left_foot, left_foot_of, hs]

/-- Claim C2 witness: the amended statement instantiated on the box
`((0,0),(2,4))`, where `y1 ≤ y2` holds and the left foot is
`(0, max 0 4) = (0, 4)`. -/
theorem left_foot_formula_witness :
    (Player.init (some ⟨((0, 0), (2, 4)), ((0, 0), (2, 4)), {}⟩)).left_foot
      = Except.ok ((0 : ℚ), max (0 : ℚ) 4) :=
  (left_foot_formula (Player.init (some ⟨((0, 0), (2, 4)), ((0, 0), (2, 4)), {}⟩))
    (Soccer.Player.init (some ⟨((0, 0), (2, 4)), ((0, 0), (2, 4)), {}⟩))
    _ _ rfl rfl).1.2 (by norm_num)

/-- Claim C3: both fixed-overlay assignments in `create_mask` use empty numpy
slices (`363:118`, `1589:143` have start > stop), so with an empty
detection list the returned mask is 1 at every pixel — no scoreboard or
logo rectangle is zeroed, contradicting the in-code comments
"remove goal counter" / "remove broadcaster logo". -/
theorem create_mask_no_detections_all_ones (h w : ℕ) (i : Fin h) (j : Fin w) :
    create_mask_no_detections h w i j = 1 := by
  unfold create_mask_no_detections zero_slice_region
  have h1 : ¬ (1589 ≤ (i : ℕ) ∧ (i : ℕ) < 143 ∧ 1805 ≤ (j : ℕ) ∧ (j : ℕ) < 95) := by omega
  have h2 : ¬ (363 ≤ (i : ℕ) ∧ (i : ℕ) < 118 ∧ 856 ≤ (j : ℕ) ∧ (j : ℕ) < 64) := by omega
  rw [if_neg h1, if_neg h2]

/-- Claim C4 counterexample: the claim says `distance_to_ball` returns the
center-to-center distance, citing both Player classes.  The soccer
Player with box `((0,0),(2,0))` and a ball centered at `(0,0)` returns
`min(dist to left foot, dist to right foot) = 0`, not the
center-to-center distance `1`. -/
theorem soccer_distance_to_ball_not_center_distance :
    (Soccer.Player.init (some ⟨((0, 0), (2, 0)), ((0, 0), (2, 0)), {}⟩)).distance_to_ball
        ⟨some ⟨((0, 0), (0, 0)), ((0, 0), (0, 0)), {}⟩, none⟩
      ≠ some (linalg_norm (((0 : ℚ), (0 : ℚ))
          - box_center (((0 : ℚ), (0 : ℚ)), ((2 : ℚ), (0 : ℚ))))) := by
  intro hco
  have hL : (Soccer.Player.init (some ⟨((0, 0), (2, 0)), ((0, 0), (2, 0)), {}⟩)).distance_to_ball
      ⟨some ⟨((0, 0), (0, 0)), ((0, 0), (0, 0)), {}⟩, none⟩
      = some (min (linalg_norm (box_center (((0 : ℚ), (0 : ℚ)), ((0 : ℚ), (0 : ℚ)))
          - left_foot_of (((0 : ℚ), (0 : ℚ)), ((2 : ℚ), (0 : ℚ)))))
        (linalg_norm (box_center (((0 : ℚ), (0 : ℚ)), ((0 : ℚ), (0 : ℚ)))
          - right_foot_of (((0 : ℚ), (0 : ℚ)), ((2 : ℚ), (0 : ℚ)))))) := rfl
  rw [hL] at hco
  have hc0 : box_center (((0 : ℚ), (0 : ℚ)), ((0 : ℚ), (0 : ℚ))) = ((0 : ℚ), (0 : ℚ)) := by
    norm_num [box_center, Prod.ext_iff]
  have hc1 : box_center (((0 : ℚ), (0 : ℚ)), ((2 : ℚ), (0 : ℚ))) = ((1 : ℚ), (0 : ℚ)) := by
    norm_num [box_center, Prod.ext_iff]
  rw [hc0, hc1, show left_foot_of (((0 : ℚ), (0 : ℚ)), ((2 : ℚ), (0 : ℚ)))
        = ((0 : ℚ), (0 : ℚ)) from rfl,
      show right_foot_of (((0 : ℚ), (0 : ℚ)), ((2 : ℚ), (0 : ℚ)))
        = ((2 : ℚ), (0 : ℚ)) from rfl,
      linalg_norm_sub_eval (r := 0) (by norm_num) (by norm_num),
      linalg_norm_sub_eval (r := 2) (by norm_num) (by norm_num),
      linalg_norm_sub_eval (r := 1) (by norm_num) (by norm_num)] at hco
  rw [min_eq_left (by norm_num)] at hco
  simp only [Option.some.injEq] at hco
  norm_num at hco

/-- Claim C4 (amended): the game `Player.distance_to_ball` returns the
Euclidean distance between the ball center and the player center,
while the soccer `Player.distance_to_ball` returns the minimum of the
ball-center-to-left-foot and ball-center-to-right-foot distances; both
return null when the player Detection or the ball center is null. -/
theorem distance_to_ball_spec (p : Player) (s : Soccer.Player) (b : Ball)
    (d e : Detection) (c : Point)
    (hp : p.detection = some d) (hs : s.detection = some e) (hb : b.center = some c) :
    p.distance_to_ball b = some (linalg_norm (c - box_center d.points)) ∧
    s.distance_to_ball b
        = some (min (linalg_norm (c - left_foot_of e.points))
            (linalg_norm (c - right_foot_of e.points))) ∧
    (∀ (q : Player) (b2 : Ball), q.detection = none ∨ b2.center = none →
      q.distance_to_ball b2 = none) ∧
    (∀ (t : Soccer.Player) (b2 : Ball), t.detection = none ∨ b2.center = none →
      t.distance_to_ball b2 = none) := by
  refine ⟨?_, ?_, ?_, ?_⟩
  · simp [Player.distance_to_ball, hp, hb]
  · simp [Soccer.Player.distance_to_ball, hs, hb]
  · rintro q b2 (hq | hb2)
    · cases h2 : b2.center <;> simp [Player.distance_to_ball, hq, h2]
    · cases h2 : q.detection <;> simp [Player.distance_to_ball, hb2, h2]
  · rintro t b2 (ht | hb2)
    · cases h2 : b2.center <;> simp [Soccer.Player.distance_to_ball, ht, h2]
    · cases h2 : t.detection <;> simp [Soccer.Player.distance_to_ball, hb2, h2]

/-- Claim C4 witness: the amended statement at a concrete game player and
ball. -/
theorem distance_to_ball_spec_witness :
    (Player.init (some ⟨((0, 0), (2, 4)), ((0, 0), (2, 4)), {}⟩)).distance_to_ball
        ⟨some ⟨((1, 4), (1, 4)), ((1, 4), (1, 4)), {}⟩, none⟩
      = some (linalg_norm (((1 : ℚ), (4 : ℚ))
          - box_center (((0 : ℚ), (0 : ℚ)), ((2 : ℚ), (4 : ℚ))))) :=
  (distance_to_ball_spec (Player.init (some ⟨((0, 0), (2, 4)), ((0, 0), (2, 4)), {}⟩))
    (Soccer.Player.init (some ⟨((0, 0), (2, 4)), ((0, 0), (2, 4)), {}⟩))
    ⟨some ⟨((1, 4), (1, 4)), ((1, 4), (1, 4)), {}⟩, none⟩
    _ _ ((1 : ℚ), (4 : ℚ)) rfl rfl (by norm_num [Ball.center, box_center, Prod.ext_iff])).1

/-- Claim C5: `closest_foot_to_ball` (both Player classes) returns the left
foot exactly on a strictly smaller left-foot distance and the right foot
otherwise, so an exact tie yields the right foot. -/
theorem closest_foot_to_ball_spec (p : Player) (s : Soccer.Player) (b : Ball)
    (d e : Detection) (c : Point)
    (hp : p.detection = some d) (hs : s.detection = some e) (hb : b.center = some c) :
    (linalg_norm (c - left_foot_of d.points) < linalg_norm (c - right_foot_of d.points) →
      p.closest_foot_to_ball b = some (left_foot_of d.points)) ∧
    (¬ linalg_norm (c - left_foot_of d.points) < linalg_norm (c - right_foot_of d.points) →
      p.closest_foot_to_ball b = some (right_foot_of d.points)) ∧
    (linalg_norm (c - left_foot_of e.points) < linalg_norm (c - right_foot_of e.points) →
      s.closest_foot_to_ball b = some (left_foot_of e.points)) ∧
    (¬ linalg_norm (c - left_foot_of e.points) < linalg_norm (c - right_foot_of e.points) →
      s.closest_foot_to_ball b = some (right_foot_of e.points)) := by
  refine ⟨?_, ?_, ?_, ?_⟩ <;> intro h <;>
    simp [Player.closest_foot_to_ball, Soccer.Player.closest_foot_to_ball,
      Player.get_left_foot, Player.get_right_foot, hp, hs, hb, h]

/-- Claim C5 witness: box `((0,0),(2,4))` with the ball centered at `(1,4)`
puts both feet at distance 1; the tie returns the right foot `(2,4)`. -/
theorem closest_foot_to_ball_spec_witness :
    (Player.init (some ⟨((0, 0), (2, 4)), ((0, 0), (2, 4)), {}⟩)).closest_foot_to_ball
        ⟨some ⟨((1, 4), (1, 4)), ((1, 4), (1, 4)), {}⟩, none⟩
      = some (right_foot_of (((0 : ℚ), (0 : ℚ)), ((2 : ℚ), (4 : ℚ)))) := by
  have htie : ¬ linalg_norm (((1 : ℚ), (4 : ℚ))
        - left_foot_of (((0 : ℚ), (0 : ℚ)), ((2 : ℚ), (4 : ℚ))))
      < linalg_norm (((1 : ℚ), (4 : ℚ))
        - right_foot_of (((0 : ℚ), (0 : ℚ)), ((2 : ℚ), (4 : ℚ)))) := by
    rw [show left_foot_of (((0 : ℚ), (0 : ℚ)), ((2 : ℚ), (4 : ℚ)))
          = ((0 : ℚ), (4 : ℚ)) from rfl,
        show right_foot_of (((0 : ℚ), (0 : ℚ)), ((2 : ℚ), (4 : ℚ)))
          = ((2 : ℚ), (4 : ℚ)) from rfl,
        linalg_norm_sub_eval (r := 1) (by norm_num) (by norm_num),
        linalg_norm_sub_eval (r := 1) (by norm_num) (by norm_num)]
    exact lt_irrefl _
  exact (closest_foot_to_ball_spec
    (Player.init (some ⟨((0, 0), (2, 4)), ((0, 0), (2, 4)), {}⟩))
    (Soccer.Player.init (some ⟨((0, 0), (2, 4)), ((0, 0), (2, 4)), {}⟩))
    ⟨some ⟨((1, 4), (1, 4)), ((1, 4), (1, 4)), {}⟩, none⟩
    _ _ ((1 : ℚ), (4 : ℚ)) rfl rfl
    (by norm_num [Ball.center, box_center, Prod.ext_iff])).2.1 htie

/-- Claim C6: `get_center` ignores its `points` argument and always reads
`self.detection.points`, so the `self.center_abs` used inside
`closest_center_to_ball_abs` is in fact the pixel-space center.  On
this concrete input the true absolute-space center-to-center distance
is `0 ≤ 3` (the pixel-space distance), so the claim requires the pixel
center to be returned, but the code compares `5 ≤ 3` and returns null. -/
theorem closest_center_to_ball_abs_uses_pixel_center :
    (Player.init (some ⟨((0, 0), (2, 0)), ((5, 0), (7, 0)), {}⟩)).closest_center_to_ball_abs
        ⟨some ⟨((4, 0), (4, 0)), ((6, 0), (6, 0)), {}⟩, none⟩ = Except.ok none ∧
    linalg_norm (box_center (((6 : ℚ), (0 : ℚ)), ((6 : ℚ), (0 : ℚ)))
        - box_center (((5 : ℚ), (0 : ℚ)), ((7 : ℚ), (0 : ℚ))))
      ≤ linalg_norm (box_center (((4 : ℚ), (0 : ℚ)), ((4 : ℚ), (0 : ℚ)))
        - box_center (((0 : ℚ), (0 : ℚ)), ((2 : ℚ), (0 : ℚ)))) := by
  have hc66 : box_center (((6 : ℚ), (0 : ℚ)), ((6 : ℚ), (0 : ℚ))) = ((6 : ℚ), (0 : ℚ)) := by
    norm_num [box_center, Prod.ext_iff]
  have hc57 : box_center (((5 : ℚ), (0 : ℚ)), ((7 : ℚ), (0 : ℚ))) = ((6 : ℚ), (0 : ℚ)) := by
    norm_num [box_center, Prod.ext_iff]
  have hc44 : box_center (((4 : ℚ), (0 : ℚ)), ((4 : ℚ), (0 : ℚ))) = ((4 : ℚ), (0 : ℚ)) := by
    norm_num [box_center, Prod.ext_iff]
  have hc02 : box_center (((0 : ℚ), (0 : ℚ)), ((2 : ℚ), (0 : ℚ))) = ((1 : ℚ), (0 : ℚ)) := by
    norm_num [box_center, Prod.ext_iff]
  constructor
  · rw [show (Player.init (some ⟨((0, 0), (2, 0)), ((5, 0), (7, 0)), {}⟩)).closest_center_to_ball_abs
          ⟨some ⟨((4, 0), (4, 0)), ((6, 0), (6, 0)), {}⟩, none⟩
        = Except.ok (if linalg_norm (box_center (((6 : ℚ), (0 : ℚ)), ((6 : ℚ), (0 : ℚ)))
              - box_center (((0 : ℚ), (0 : ℚ)), ((2 : ℚ), (0 : ℚ))))
            ≤ linalg_norm (box_center (((4 : ℚ), (0 : ℚ)), ((4 : ℚ), (0 : ℚ)))
              - box_center (((0 : ℚ), (0 : ℚ)), ((2 : ℚ), (0 : ℚ))))
          then some (box_center (((0 : ℚ), (0 : ℚ)), ((2 : ℚ), (0 : ℚ)))) else none)
        from rfl,
      hc66, hc44, hc02,
      linalg_norm_sub_eval (r := 5) (by norm_num) (by norm_num),
      linalg_norm_sub_eval (r := 3) (by norm_num) (by norm_num),
      if_neg (by norm_num)]
  · rw [hc66, hc57, hc44, hc02,
      linalg_norm_sub_eval (r := 0) (by norm_num) (by norm_num),
      linalg_norm_sub_eval (r := 3) (by norm_num) (by norm_num)]
    norm_num

/-- Claim C7: for a player with a non-null Detection, `distance_to_last_ball`
falls back to the last detection center when the ball current
center is null, and returns null when neither the current nor the last
detection provides a center. -/
theorem distance_to_last_ball_spec (p : Player) (b : Ball) (d ld : Detection)
    (hp : p.detection = some d) :
    (b.center = none → b.last_detection = some ld →
      p.distance_to_last_ball b = some (linalg_norm (ld.center - box_center d.points))) ∧
    (b.center = none → b.last_detection = none → p.distance_to_last_ball b = none) := by
  constructor
  · intro hc hl
    simp [Player.distance_to_last_ball, hp, hc, hl]
  · intro hc hl
    simp [Player.distance_to_last_ball, hp, hc, hl]

/-- Claim C7 witness: a ball with no current Detection but a retained last
detection at `(3,2)` yields the distance to that retained center. -/
theorem distance_to_last_ball_spec_witness :
    (Player.init (some ⟨((0, 0), (2, 4)), ((0, 0), (2, 4)), {}⟩)).distance_to_last_ball
        ⟨none, some ⟨((3, 2), (3, 2)), ((3, 2), (3, 2)), {}⟩⟩
      = some (linalg_norm
          ((⟨((3, 2), (3, 2)), ((3, 2), (3, 2)), {}⟩ : Detection).center
            - box_center (((0 : ℚ), (0 : ℚ)), ((2 : ℚ), (4 : ℚ))))) :=
  (distance_to_last_ball_spec
    (Player.init (some ⟨((0, 0), (2, 4)), ((0, 0), (2, 4)), {}⟩))
    ⟨none, some ⟨((3, 2), (3, 2)), ((3, 2), (3, 2)), {}⟩⟩
    _ _ rfl).1 rfl rfl

/-- Claim C8 counterexample: comparing two null-Detection Players raises
`AttributeError` (reading `self.detection.data`) instead of degrading to
false as the claim states. -/
theorem eq_null_detection_raises :
    (Player.init none).eq (PyVal.player (Player.init none))
        = Except.error PyErr.attributeError ∧
    (Player.init none).eq (PyVal.player (Player.init none)) ≠ Except.ok false := by
  constructor
  · rfl
  · intro hco
    rw [show (Player.init none).eq (PyVal.player (Player.init none))
          = Except.error PyErr.attributeError from rfl] at hco
    exact Except.noConfusion hco

/-- Claim C8 (amended): comparing against a non-Player yields false without
raising; when both Players hold Detections whose attribute maps carry
an `"id"`, equality holds exactly when the identifiers are equal; but a
null Detection on the left side makes the comparison raise
`AttributeError` rather than return false. -/
theorem eq_spec (p q : Player) (d1 d2 : Detection) (i j : Int)
    (hp : p.detection = some d1) (hq : q.detection = some d2)
    (hi : d1.data.id = some i) (hj : d2.data.id = some j) :
    p.eq PyVal.nonPlayer = Except.ok false ∧
    (p.eq (PyVal.player q) = Except.ok true ↔ i = j) ∧
    (∀ r : Player, r.detection = none → ∀ q2 : Player,
      r.eq (PyVal.player q2) = Except.error PyErr.attributeError) := by
  refine ⟨rfl, ?_, ?_⟩
  · simp [Player.eq, hp, hq, hi, hj]
  · intro r hr q2
    simp [Player.eq, hr]

/-- Claim C8 witness: two Players with tracker id 5 compare equal. -/
theorem eq_spec_witness :
    (Player.init (some ⟨((0, 0), (1, 1)), ((0, 0), (1, 1)), { id := some 5 }⟩)).eq
        (PyVal.player (Player.init (some ⟨((2, 2), (3, 3)), ((2, 2), (3, 3)), { id := some 5 }⟩)))
      = Except.ok true :=
  ((eq_spec (Player.init (some ⟨((0, 0), (1, 1)), ((0, 0), (1, 1)), { id := some 5 }⟩))
    (Player.init (some ⟨((2, 2), (3, 3)), ((2, 2), (3, 3)), { id := some 5 }⟩))
    _ _ 5 5 rfl rfl rfl rfl).2.1).mpr rfl

/-- Claim C9: `from_detections` equals mapping the classify-then-construct
step over the null-filtered input (so null detections are skipped
silently, relative order is preserved, and no deduplication happens),
the output is never longer than the input, and for a classified
detection the resolved team is written under the `"team"` key before
the Player is constructed and is the team the Player ends up with. -/
theorem from_detections_spec (ds : List (Option Detection)) (ts : List Team) :
    Player.from_detections ds ts
        = ds.reduceOption.map (fun d => Player.init (classify_detection ts d)) ∧
    (Player.from_detections ds ts).length ≤ ds.length ∧
    (∀ (d : Detection) (name : String), d.data.classification = some name →
      (classify_detection ts d).data.team = some (Team.from_name ts name) ∧
      (Player.init (some (classify_detection ts d))).team = Team.from_name ts name) := by
  have hmap : Player.from_detections ds ts
      = ds.reduceOption.map (fun d => Player.init (classify_detection ts d)) := by
    induction ds with
    | nil => rfl
    | cons hd tl ih =>
      cases hd with
      | none => simpa [Player.from_detections, List.reduceOption_cons_of_none] using ih
      | some d => simp [Player.from_detections, List.reduceOption_cons_of_some, ih]
  refine ⟨hmap, ?_, ?_⟩
  · rw [hmap, List.length_map]
    exact List.reduceOption_length_le ds
  · intro d name hcl
    constructor
    · simp [classify_detection, hcl]
    · simp [classify_detection, hcl, Player.init]

/-- Claim C9 witness: a detection classified `"TeamRed"` with a roster
containing `"TeamRed"` yields a Player carrying that resolved team. -/
theorem from_detections_spec_witness :
    (Player.init (some (classify_detection [⟨"TeamRed"⟩]
        ⟨((0, 0), (1, 1)), ((0, 0), (1, 1)), { classification := some "TeamRed" }⟩))).team
      = Team.from_name [⟨"TeamRed"⟩] "TeamRed" :=
  ((from_detections_spec
    [some ⟨((0, 0), (1, 1)), ((0, 0), (1, 1)), { classification := some "TeamRed" }⟩]
    [⟨"TeamRed"⟩]).2.2 _ "TeamRed" rfl).2

/-- Claim C10 counterexample: a non-null Player whose Detection is null makes
`have_same_id` raise `AttributeError` (reading `player1.detection.data`)
instead of returning false as the claim states for a missing `"id"`. -/
theorem have_same_id_null_detection_raises :
    Player.have_same_id (some (Player.init none)) (some (Player.init none))
        = Except.error PyErr.attributeError ∧
    Player.have_same_id (some (Player.init none)) (some (Player.init none))
        ≠ Except.ok false := by
  constructor
  · rfl
  · intro hco
    rw [show Player.have_same_id (some (Player.init none)) (some (Player.init none))
          = Except.error PyErr.attributeError from rfl] at hco
    exact Except.noConfusion hco

/-- Claim C10 (amended): `have_same_id` returns false without raising when
either argument is null, or when both arguments hold Detections and
either attribute map lacks `"id"`; with both ids present it returns
true exactly when they are equal; but a null Detection on a non-null
argument raises `AttributeError`. -/
theorem have_same_id_spec (a b : Player) (d1 d2 : Detection) (i j : Int)
    (p2 : Option Player) :
    Player.have_same_id none p2 = Except.ok false ∧
    Player.have_same_id (some a) none = Except.ok false ∧
    (a.detection = some d1 → d1.data.id = none →
      Player.have_same_id (some a) (some b) = Except.ok false) ∧
    (a.detection = some d1 → d1.data.id = some i → b.detection = some d2 →
      d2.data.id = none → Player.have_same_id (some a) (some b) = Except.ok false) ∧
    (a.detection = some d1 → d1.data.id = some i → b.detection = some d2 →
      d2.data.id = some j →
      (Player.have_same_id (some a) (some b) = Except.ok true ↔ i = j)) ∧
    (a.detection = none →
      Player.have_same_id (some a) (some b) = Except.error PyErr.attributeError) := by
  refine ⟨?_, rfl, ?_, ?_, ?_, ?_⟩
  · cases p2 <;> rfl
  · intro h1 h2
    simp [Player.have_same_id, h1, h2]
  · intro h1 h2 h3 h4
    simp [Player.have_same_id, h1, h2, h3, h4]
  · intro h1 h2 h3 h4
    simp [Player.have_same_id, Player.eq, h1, h2, h3, h4]
  · intro h1
    simp [Player.have_same_id, h1]

/-- Claim C10 witness: two Players with tracker id 7 satisfy `have_same_id`. -/
theorem have_same_id_spec_witness :
    Player.have_same_id
        (some (Player.init (some ⟨((0, 0), (1, 1)), ((0, 0), (1, 1)), { id := some 7 }⟩)))
        (some (Player.init (some ⟨((0, 0), (1, 1)), ((0, 0), (1, 1)), { id := some 7 }⟩)))
      = Except.ok true :=
  ((have_same_id_spec
    (Player.init (some ⟨((0, 0), (1, 1)), ((0, 0), (1, 1)), { id := some 7 }⟩))
    (Player.init (some ⟨((0, 0), (1, 1)), ((0, 0), (1, 1)), { id := some 7 }⟩))
    _ _ 7 7 none).2.2.2.2.1 rfl rfl rfl rfl).mpr rfl
